import Mathlib

/-!
Verification development for the Wabbajack-fast-downloader2 download engine
(`src/gui.py`, `src/downloader.py`).

The Python code is shallowly embedded:
* file contents are `List Nat` (bytes), the file system is a partial map
  from absolute path strings to contents (paths are modelled as already
  absolute, so `os.path.abspath` is the identity on them);
* the persisted verification state (`download_state.json`, the "Ledger")
  is a partial map from hash key to `{path, verified}` records;
* the third-party `xxhash.xxh64` streaming hasher is embedded by the
  published XXH64 algorithm (validated below on its standard test
  vectors); feeding the hasher successive chunks is modelled by the
  concatenation of the bytes fed so far;
* `int(...)` / `str.isdigit` are embedded with Python's semantics for
  ASCII decimal strings (optional surrounding whitespace and sign for
  `int`; underscore digit separators are not modelled);
* the verification mode string takes only the three values the GUI's radio
  buttons offer, so it is a three-valued enumeration here;
* machine integers do not occur: Python integers are unbounded, and the
  64-bit hash arithmetic is `Nat` with explicit `% 2^64`.
-/

/-! ## Python string and integer helpers -/

/-- Decimal ASCII digit test, as used by `str.isdigit` on the CSV fields. -/
def isDigitChar (c : Char) : Bool := '0' ≤ c && c ≤ '9'

/-- Whitespace stripped by Python's `int()` before parsing. -/
def isSpaceChar (c : Char) : Bool :=
  c = ' ' || c = '\t' || c = '\n' || c = '\r' || c = '\x0b' || c = '\x0c'

/-- Strip leading and trailing whitespace from a character list. -/
def stripWs (l : List Char) : List Char :=
  ((l.dropWhile isSpaceChar).reverse.dropWhile isSpaceChar).reverse

/-- Numeric value of a decimal digit character. -/
def digitVal (c : Char) : Nat := c.toNat - '0'.toNat

/-- Value of a string of decimal digits. -/
def digitsVal (l : List Char) : Nat := l.foldl (fun a c => a * 10 + digitVal c) 0

/-- Python `int(s)` on a string: strips whitespace, allows one sign,
then decimal digits; `none` models a raised `ValueError`. -/
def pyInt? (s : String) : Option Int :=
  match stripWs s.data with
  | [] => none
  | '+' :: ds => if ds ≠ [] ∧ ds.all isDigitChar then some (digitsVal ds) else none
  | '-' :: ds => if ds ≠ [] ∧ ds.all isDigitChar then some (-(digitsVal ds : Int)) else none
  | ds => if ds.all isDigitChar then some (digitsVal ds) else none

/-- Python `s.isdigit()` restricted to ASCII decimal digits. -/
def pyIsDigit (s : String) : Bool := !s.data.isEmpty && s.data.all isDigitChar

/-! ## XXH64 (the `xxhash.xxh64` library function used by
`Downloader.calculate_file_hash_base64`), embedded from the published
XXH64 algorithm; all arithmetic is modulo `2^64`. -/

def U64 : Nat := 18446744073709551616

def xxP1 : Nat := 11400714785074694791
def xxP2 : Nat := 14029467366897019727
def xxP3 : Nat := 1609587929392839161
def xxP4 : Nat := 9650029242287828579
def xxP5 : Nat := 2870177450012600261

/-- Rotate a 64-bit value left by `r` (callers keep `x < 2^64`, `0 < r < 64`). -/
def rotl64 (x r : Nat) : Nat := (x * 2 ^ r) % U64 + x / 2 ^ (64 - r)

/-- Little-endian value of a byte list. -/
def readLE (bs : List Nat) : Nat := bs.foldr (fun b acc => b + 256 * acc) 0

/-- One XXH64 accumulator round. -/
def xxRound (acc lane : Nat) : Nat := rotl64 ((acc + lane * xxP2) % U64) 31 * xxP1 % U64

/-- XXH64 merge of one accumulator into the final hash. -/
def xxMergeAcc (h acc : Nat) : Nat := ((h ^^^ xxRound 0 acc) * xxP1 % U64 + xxP4) % U64

/-- XXH64 final avalanche. -/
def xxAvalanche (h : Nat) : Nat :=
  let h1 := (h ^^^ (h >>> 33)) * xxP2 % U64
  let h2 := (h1 ^^^ (h1 >>> 29)) * xxP3 % U64
  h2 ^^^ (h2 >>> 32)

/-- Split a list into consecutive chunks of `n` elements (last chunk may be
shorter); this is the sequence of non-empty reads produced by the Python
loop `while data := f.read(n)`.  `acc` holds the current chunk reversed and
`k` its remaining capacity; structural recursion on the list keeps the
definition kernel-computable. -/
def chunksGo (n : Nat) (acc : List Nat) (k : Nat) : List Nat → List (List Nat)
  | [] => if acc.isEmpty then [] else [acc.reverse]
  | x :: xs =>
    match k with
    | 0 => acc.reverse :: chunksGo n [x] (n - 1) xs
    | k' + 1 => chunksGo n (x :: acc) k' xs

/-- Consecutive chunks of `n` bytes. -/
def chunksOf (n : Nat) (l : List Nat) : List (List Nat) := chunksGo n [] n l

/-- Split the input into its full 32-byte stripes and the remainder. -/
def splitStripes (l : List Nat) : List (List Nat) × List Nat :=
  let cs := chunksOf 32 l
  match cs.getLast? with
  | none => ([], [])
  | some lastC => if lastC.length = 32 then (cs, []) else (cs.dropLast, lastC)

/-- Fold one 32-byte stripe into the four accumulators. -/
def xxStripeStep (a : Nat × Nat × Nat × Nat) (s : List Nat) : Nat × Nat × Nat × Nat :=
  (xxRound a.1 (readLE (s.take 8)),
   xxRound a.2.1 (readLE ((s.drop 8).take 8)),
   xxRound a.2.2.1 (readLE ((s.drop 16).take 8)),
   xxRound a.2.2.2 (readLE ((s.drop 24).take 8)))

/-- Tail loop over remaining 8-byte words. -/
def xxTail8 (h : Nat) : List Nat → Nat × List Nat
  | b0 :: b1 :: b2 :: b3 :: b4 :: b5 :: b6 :: b7 :: rest =>
    xxTail8 ((rotl64 (h ^^^ xxRound 0 (readLE [b0, b1, b2, b3, b4, b5, b6, b7])) 27 * xxP1 % U64 + xxP4) % U64) rest
  | l => (h, l)

/-- Tail loop over a remaining 4-byte word. -/
def xxTail4 (h : Nat) : List Nat → Nat × List Nat
  | b0 :: b1 :: b2 :: b3 :: rest =>
    xxTail4 ((rotl64 (h ^^^ readLE [b0, b1, b2, b3] * xxP1 % U64) 23 * xxP2 % U64 + xxP3) % U64) rest
  | l => (h, l)

/-- Tail step for one remaining byte. -/
def xxTail1Step (h b : Nat) : Nat := rotl64 (h ^^^ b * xxP5 % U64) 11 * xxP1 % U64

/-- XXH64 of a byte list with the given seed. -/
def xxh64 (seed : Nat) (input : List Nat) : Nat :=
  let n := input.length
  let hr : Nat × List Nat :=
    if 32 ≤ n then
      let sr := splitStripes input
      let a := sr.1.foldl xxStripeStep
        ((seed + xxP1 + xxP2) % U64, (seed + xxP2) % U64, seed % U64, (seed + (U64 - xxP1)) % U64)
      let h0 := (rotl64 a.1 1 + rotl64 a.2.1 7 + rotl64 a.2.2.1 12 + rotl64 a.2.2.2 18) % U64
      (xxMergeAcc (xxMergeAcc (xxMergeAcc (xxMergeAcc h0 a.1) a.2.1) a.2.2.1) a.2.2.2, sr.2)
    else
      ((seed + xxP5) % U64, input)
  let h1 := (hr.1 + n) % U64
  let t8 := xxTail8 h1 hr.2
  let t4 := xxTail4 t8.1 t8.2
  xxAvalanche (t4.2.foldl xxTail1Step t4.1)

/-! ## struct.pack and base64 -/

/-- Python `struct.pack` with format `<Q`: the eight bytes of a 64-bit
value, little-endian. -/
def packLE8 (x : Nat) : List Nat :=
  [x % 256, x / 2 ^ 8 % 256, x / 2 ^ 16 % 256, x / 2 ^ 24 % 256,
   x / 2 ^ 32 % 256, x / 2 ^ 40 % 256, x / 2 ^ 48 % 256, x / 2 ^ 56 % 256]

/-- The standard base64 alphabet. -/
def b64Alphabet : List Char :=
  "ABCDEFGHIJKLMNOPQRSTUVWXYZabcdefghijklmnopqrstuvwxyz0123456789+/".data

/-- Character of a 6-bit group. -/
def b64Char (n : Nat) : Char := b64Alphabet.getD n 'A'

/-- Base64 encoding of a byte list (standard alphabet, with padding), as
`base64.b64encode`. -/
def b64Chars : List Nat → List Char
  | b0 :: b1 :: b2 :: rest =>
    let w := b0 * 65536 + b1 * 256 + b2
    b64Char (w / 2 ^ 18) :: b64Char (w / 2 ^ 12 % 64) :: b64Char (w / 2 ^ 6 % 64) ::
      b64Char (w % 64) :: b64Chars rest
  | [b0, b1] =>
    let w := b0 * 65536 + b1 * 256
    [b64Char (w / 2 ^ 18), b64Char (w / 2 ^ 12 % 64), b64Char (w / 2 ^ 6 % 64), '=']
  | [b0] =>
    let w := b0 * 65536
    [b64Char (w / 2 ^ 18), b64Char (w / 2 ^ 12 % 64), '=', '=']
  | [] => []

/-- Base64 encoding of a byte list as a string. -/
def base64Encode (bs : List Nat) : String := String.mk (b64Chars bs)

/-! ## File system, ledger, and verification modes -/

/-- The local file system: contents of each existing absolute path. -/
def FS : Type := String → Option (List Nat)

/-- Existence test, `os.path.exists`. -/
def fsExists (fs : FS) (p : String) : Bool := (fs p).isSome

/-- Byte length of a file, `os.path.getsize`; `none` models a raised
`OSError` for a missing file. -/
def fsGetSize? (fs : FS) (p : String) : Option Nat := (fs p).map List.length

/-- One record of the persisted state (`download_state.json`):
`{'path': ..., 'verified': ...}`. -/
structure LedgerRecord where
  path : Option String
  verified : Bool
deriving DecidableEq

/-- The persisted verification state: hash key to record. -/
def Ledger : Type := String → Option LedgerRecord

/-- Python dict assignment `state[key] = rec`. -/
def ledgerSet (st : Ledger) (key : String) (rec : LedgerRecord) : Ledger :=
  fun k => if k = key then some rec else st k

/-- The verification mode selected by the GUI radio buttons
(`verification_mode_var`). -/
inductive VerifyMode
  | Skip
  | Size
  | Hash
deriving DecidableEq

/-- Model of `os.path.abspath` under the convention that all embedded
paths are already absolute. -/
def abspath (p : String) : String := p

/-! ## Downloader.calculate_file_hash_base64 (gui.py lines 130-136) -/

/-- The bytes fed to the streaming hasher by the read loop
`while data := f.read(1024*1024): hasher.update(data)`: the hasher's state
is the concatenation of the chunks fed so far. -/
def hasherFeed (contents : List Nat) : List Nat :=
  (chunksOf (1024 * 1024) contents).foldl (fun st data => st ++ data) []

/-- `Downloader.calculate_file_hash_base64` applied to a file with the given
contents: stream the file in 1 MiB chunks through `xxhash.xxh64(seed=0)`,
pack the digest with `struct.pack('<Q', ...)`, and base64-encode it. -/
def calculate_file_hash_base64 (contents : List Nat) : String :=
  base64Encode (packLE8 (xxh64 0 (hasherFeed contents)))

/-! ## Downloader.verify_and_update_state (gui.py lines 153-199) -/

/-- Outcome of one `verify_and_update_state` call: the verification flag
computed in the `success` branch, the `success=False` branch, or the
`except` handler (an exception raised and caught). -/
inductive VerifyOutcome
  | ok (verified : Bool)
  | failedDownload
  | exn
deriving DecidableEq

/-- Result of one `verify_and_update_state` call: outcome, the updated
state dict, and the number of `save_state` calls made. -/
structure VerifyResult where
  outcome : VerifyOutcome
  ledger : Ledger
  saves : Nat

/-- `Downloader.verify_and_update_state`.  On success it computes `verified`
according to the mode (`Skip`: trust; `Size`: byte length versus
`int(expected_size)`; `Hash`: recomputed digest versus `expected_hash`),
then — only when `expected_hash` is non-empty — records
`{path: normalized_path, verified}` under `expected_hash` and saves.  A
failed download or a caught exception records `{path: None, verified: False}`
under a non-empty `expected_hash` and saves. -/
def verify_and_update_state (mode : VerifyMode) (fs : FS)
    (filepath expected_hash expected_size : String) (success : Bool)
    (st : Ledger) : VerifyResult :=
  let normalized := abspath filepath
  let finishOk : Bool → VerifyResult := fun v =>
    ⟨.ok v,
     if expected_hash ≠ "" then ledgerSet st expected_hash ⟨some normalized, v⟩ else st,
     1⟩
  let exnResult : VerifyResult :=
    ⟨.exn,
     if expected_hash ≠ "" then ledgerSet st expected_hash ⟨none, false⟩ else st,
     1⟩
  if success then
    match mode with
    | .Skip => finishOk true
    | .Size =>
      if expected_size = "" then finishOk false
      else
        match fsGetSize? fs normalized with
        | none => exnResult
        | some actualSize =>
          match pyInt? expected_size with
          | none => exnResult
          | some n => finishOk ((actualSize : Int) == n)
    | .Hash =>
      if expected_hash = "" then finishOk false
      else
        match fs normalized with
        | none => exnResult
        | some bytes => finishOk (calculate_file_hash_base64 bytes == expected_hash)
  else
    ⟨.failedDownload,
     if expected_hash ≠ "" then ledgerSet st expected_hash ⟨none, false⟩ else st,
     1⟩

/-! ## Downloader.check_existing_file (gui.py lines 223-296) -/

/-- Result of one `check_existing_file` call: the returned boolean, the
updated state dict, the number of `save_state` calls, and the paths whose
contents were re-hashed (`calculate_file_hash_base64` calls). -/
structure CheckResult where
  result : Bool
  ledger : Ledger
  saves : Nat
  hashedPaths : List String

/-- The state-keyed branch of `check_existing_file` (lines 228-251):
when `expected_hash` is non-empty and present in the state with
`verified=true`, a truthy path, and that path existing on disk, `Skip` and
`Hash` modes accept immediately; `Size` mode re-downloads on a missing or
non-digit `Size` field and accepts on a byte-length match.  `none` means
fall through to the path-keyed fallback. -/
def checkStateBranch (mode : VerifyMode) (fs : FS) (st : Ledger)
    (expected_hash expected_size : String) : Option CheckResult :=
  if expected_hash ≠ "" then
    match st expected_hash with
    | some entry =>
      match entry.path with
      | some statePath =>
        if entry.verified ∧ statePath ≠ "" ∧ fsExists fs statePath then
          match mode with
          | .Skip => some ⟨true, st, 0, []⟩
          | .Size =>
            if expected_size = "" ∨ ¬ pyIsDigit expected_size then some ⟨false, st, 0, []⟩
            else
              match fsGetSize? fs statePath with
              | some sz => if sz = digitsVal expected_size.data then some ⟨true, st, 0, []⟩ else none
              | none => none
          | .Hash => some ⟨true, st, 0, []⟩
        else none
      | none => none
    | none => none
  else none

/-- The path-keyed fallback of `check_existing_file` (lines 253-296):
check the CSV path itself; in `Hash` mode a matching recomputed digest also
rewrites the state entry and saves. -/
def checkFallback (mode : VerifyMode) (fs : FS) (st : Ledger)
    (filepath expected_hash expected_size : String) : CheckResult :=
  let np := abspath filepath
  if ¬ fsExists fs np then ⟨false, st, 0, []⟩
  else
    match mode with
    | .Skip => ⟨true, st, 0, []⟩
    | .Size =>
      if expected_size = "" ∨ ¬ pyIsDigit expected_size then ⟨false, st, 0, []⟩
      else
        match fsGetSize? fs np with
        | some sz =>
          if sz = digitsVal expected_size.data then ⟨true, st, 0, []⟩ else ⟨false, st, 0, []⟩
        | none => ⟨false, st, 0, []⟩
    | .Hash =>
      if expected_hash = "" then ⟨false, st, 0, []⟩
      else
        match fs np with
        | none => ⟨false, st, 0, []⟩
        | some bytes =>
          if calculate_file_hash_base64 bytes = expected_hash then
            ⟨true, ledgerSet st expected_hash ⟨some np, true⟩, 1, [np]⟩
          else ⟨false, st, 0, [np]⟩

/-- `Downloader.check_existing_file`: the state-keyed branch, then the
path-keyed fallback. -/
def check_existing_file (mode : VerifyMode) (fs : FS) (st : Ledger)
    (filepath expected_hash expected_size : String) : CheckResult :=
  match checkStateBranch mode fs st expected_hash expected_size with
  | some r => r
  | none => checkFallback mode fs st filepath expected_hash expected_size

/-! ## Downloader.process_csv_row (gui.py lines 201-221) and run (340-366) -/

/-- One CSV work record as read by `csv.DictReader`; a missing column is
`none`, an empty field is `some ""` (both falsy in the Python tests). -/
structure Row where
  URL : Option String
  Hash : Option String
  Size : Option String
  Name : Option String
deriving DecidableEq

/-- What `process_csv_row` did with a row: skipped for a missing URL/Name,
confirmed by the existing-file check, or enqueued on the download queue
(with the pending verification tuple's path). -/
inductive RowAction
  | skippedRow
  | confirmed
  | enqueue (url filepath : String)
deriving DecidableEq

/-- `Downloader.process_csv_row`: falsy URL or Name skips the row; a
positive `check_existing_file` confirms it without enqueueing; otherwise
the row is put on the download queue. -/
def process_csv_row (mode : VerifyMode) (fs : FS) (st : Ledger)
    (downloadDir : String) (row : Row) : RowAction × Ledger :=
  let url := row.URL.getD ""
  let expected_hash := row.Hash.getD ""
  let expected_size := row.Size.getD ""
  let name := row.Name.getD ""
  if url = "" ∨ name = "" then (.skippedRow, st)
  else
    let filepath := downloadDir ++ "/" ++ name
    let r := check_existing_file mode fs st filepath expected_hash expected_size
    if r.result then (.confirmed, r.ledger) else (.enqueue url filepath, r.ledger)

/-- The sort key of `run` (line 349): `int(x.get('Size') or 0)`; `none`
models the `ValueError` raised by a non-numeric non-empty field. -/
def sizeKey? (r : Row) : Option Int :=
  match r.Size with
  | none => some 0
  | some s => if s = "" then some 0 else pyInt? s

/-- The comparison Python's stable sort applies to the parsed keys. -/
def rowLe (a b : Row) : Bool := (sizeKey? a).getD 0 ≤ (sizeKey? b).getD 0

/-- The row order produced by line 349 of `run`:
`rows = sorted(reader, key=lambda x: int(x.get('Size') or 0))`. -/
def sortRows (rows : List Row) : List Row := rows.mergeSort rowLe

/-- The per-row loop of `run` (lines 355-356): each sorted row goes through
`process_csv_row`, threading the state dict.  Returns the rows in
processing order paired with what was done to each, and the final state. -/
def processRows (mode : VerifyMode) (fs : FS) (downloadDir : String) :
    Ledger → List Row → List (Row × RowAction) × Ledger
  | st, [] => ([], st)
  | st, r :: rest =>
    let a := process_csv_row mode fs st downloadDir r
    let res := processRows mode fs downloadDir a.2 rest
    ((r, a.1) :: res.1, res.2)

/-- The skip-check/enqueue pass of `run`: `process_csv_row` applied to the
size-sorted rows in order. -/
def runRowPass (mode : VerifyMode) (fs : FS) (downloadDir : String)
    (st : Ledger) (rows : List Row) : List (Row × RowAction) × Ledger :=
  processRows mode fs downloadDir st (sortRows rows)

/-! ## Ledger persistence events (gui.py lines 153-199, 326-338, 340-366) -/

/-- Observable persistence events of the run loop: one item verification
(`verify_and_update_state`, which itself ends with `save_state`), or a
`save_state` call. -/
inductive Ev
  | verifyItem (name : String)
  | save
deriving DecidableEq

/-- Events of one `verify_and_update_state` call: the verification followed
by the `save_state` its own body performs (line 193, and line 199 in the
exception handler — exactly one save either way). -/
def verifyCallEvents (name : String) : List Ev := [.verifyItem name, .save]

/-- Events of `process_results` over one batch's verified items. -/
def processResultsEvents (items : List String) : List Ev :=
  (items.map verifyCallEvents).flatten

/-- Events of one completed batch in `run` (lines 358-360):
`process_results(results)` followed by the loop's own `save_state()`. -/
def batchEvents (items : List String) : List Ev :=
  processResultsEvents items ++ [.save]

/-- Persistence events of a whole run (sequence of completed batches, then
the `finally: save_state()` of line 365). -/
def runEvents (batches : List (List String)) : List Ev :=
  (batches.map batchEvents).flatten ++ [.save]

/-- Number of persistence events in an event list. -/
def countSaves (evs : List Ev) : Nat := evs.count .save

/-! ## Batch draining (gui.py lines 298-324) and the parallel downloader -/

/-- The queue-draining loop of `download_batch` (lines 303-307):
`while not self.download_queue.empty() and len(urls) < self.queue_size`.
Returns the drained batch and the remaining queue. -/
def drainLoop (queueSize : Nat) (acc : List (String × String)) :
    List (String × String) → List (String × String) × List (String × String)
  | [] => (acc, [])
  | x :: rest =>
    if acc.length < queueSize then drainLoop queueSize (acc ++ [x]) rest
    else (acc, x :: rest)

/-- The batch `download_batch` hands to `download_nexus_mods`, and the
queue it leaves behind. -/
def download_batch (queueSize : Nat) (q : List (String × String)) :
    List (String × String) × List (String × String) :=
  drainLoop queueSize [] q

/-- The per-batch resolution loop of `download_nexus_mods`
(downloader.py lines 262-266): each (url, filepath) pair whose resolution
succeeds contributes exactly one `add_download` — one transfer task. -/
def resolvedTasks (resolve : String → Option String)
    (batch : List (String × String)) : List (String × String) :=
  batch.filterMap fun uf => (resolve uf.1).map fun du => (du, uf.2)

/-! ## get_nexusmods_download_url (downloader.py lines 11-69) -/

/-- Match of the regex `file_id=(\d+)` at the head of the character list:
the literal `file_id=` followed by at least one digit, captured greedily. -/
def fileIdAt? (cs : List Char) : Option String :=
  if "file_id=".data.isPrefixOf cs then
    let ds := (cs.drop 8).takeWhile isDigitChar
    if ds.isEmpty then none else some (String.mk ds)
  else none

/-- `re.search(r'file_id=(\d+)', url)`: the leftmost match. -/
def searchFileId : List Char → Option String
  | [] => none
  | c :: rest =>
    match fileIdAt? (c :: rest) with
    | some s => some s
    | none => searchFileId rest

/-- Environment reply to the single POST issued by the resolver: a
transport fault (any raised exception), or a status code with the decoded
body — `none` when the body is not JSON, otherwise the value of its `url`
field (`none` when absent; a non-empty string is truthy). -/
inductive HttpReply
  | transport
  | reply (status : Nat) (urlField : Option (Option String))

/-- `get_nexusmods_download_url`: the resolved direct URL (or `None`) and
the number of POST requests issued. -/
def get_nexusmods_download_url (url : String) (env : HttpReply) :
    Option String × Nat :=
  match searchFileId url.data with
  | none => (none, 0)
  | some _ =>
    match env with
    | .transport => (none, 1)
    | .reply status urlField =>
      if status = 200 then
        match urlField with
        | none => (none, 1)
        | some f =>
          match f with
          | some u => (if u ≠ "" then some u else none, 1)
          | none => (none, 1)
      else (none, 1)

/-- A file system equal to `fs` except that path `p` now holds contents
`c` (the file's bytes changed on disk). -/
def fsOverride (fs : FS) (p : String) (c : List Nat) : FS :=
  fun q => if q = p then some c else fs q

/-! ## Concrete fixtures used to instantiate the theorems -/

/-- The empty persisted state (first run, no `download_state.json`). -/
def ledgerEmpty : Ledger := fun _ => none

/-- A file system holding one three-byte file. -/
def fsAbc : FS := fun p => if p = "/dl/a.bin" then some [0x61, 0x62, 0x63] else none

/-- A file system holding the two size-check scenario files: one of
exactly 1048576 bytes and one of 1048500 bytes. -/
def fsModA : FS := fun p =>
  if p = "/dl/mod_a.zip" then some (List.replicate 1048576 0)
  else if p = "/dl/mod_b.zip" then some (List.replicate 1048500 0)
  else none

/-- A file system holding one five-byte file. -/
def fsFive : FS := fun p => if p = "/dl/f.bin" then some [1, 2, 3, 4, 5] else none

/-- A state that marks hash key `h1` verified at the five-byte file. -/
def stH1 : Ledger := fun k => if k = "h1" then some ⟨some "/dl/f.bin", true⟩ else none

/-- A work record whose `Size` field is empty. -/
def rowH1 : Row := ⟨some "u1", some "h1", some "", some "f.bin"⟩

/-- A file system holding one five-byte file at the path used by the
idempotence scenario. -/
def fsM : FS := fun p => if p = "/dl/m.bin" then some [9, 9, 9, 9, 9] else none

/-- The idempotence scenario's work record: its `Size` field parses under
`int()` but is not a digit string. -/
def rowM : Row := ⟨some "u6", some "h6", some "+5", some "m.bin"⟩

/-- A reference URL carrying a numeric file id. -/
def urlRef : String := "https://www.nexusmods.com/skyrim/mods/3863?tab=files&file_id=345"

/-- A 200 reply whose JSON body carries a non-empty `url` field. -/
def replyOk : HttpReply := .reply 200 (some (some "https://cdn.example/d.7z"))

/-- Three work records with parseable sizes, out of order. -/
def rowsSizes : List Row :=
  [⟨some "u1", some "", some "20", some "a"⟩,
   ⟨some "u2", some "", some "5", some "b"⟩,
   ⟨some "u3", some "", none, some "c"⟩]

/-! # Theorems -/

/-! Standard XXH64 test vectors (seed 0), cross-checked against the
reference implementation. -/

theorem xxh64_vector_empty : xxh64 0 [] = 0xEF46DB3751D8E999 := by decide

theorem xxh64_vector_a : xxh64 0 [0x61] = 0xD24EC4F1A98C6E5B := by decide

theorem xxh64_vector_abc : xxh64 0 [0x61, 0x62, 0x63] = 0x44BC2CF5AD770999 := by decide

theorem xxh64_vector_40bytes : xxh64 0 (List.range 40) = 0xF5DA40F1B11741E9 := by decide

theorem b64_pack_abc :
    base64Encode (packLE8 (xxh64 0 [0x61, 0x62, 0x63])) = "mQl3rfUsvEQ=" := by decide

/-! ## The chunked read loop feeds exactly the file's bytes -/

theorem foldl_append_flatten (cs : List (List Nat)) :
    ∀ a : List Nat, cs.foldl (fun st data => st ++ data) a = a ++ cs.flatten := by
  induction cs with
  | nil => intro a; simp
  | cons c cs ih => intro a; simp [List.foldl_cons, ih, List.append_assoc]

theorem chunksGo_flatten (n : Nat) :
    ∀ (l acc : List Nat) (k : Nat), (chunksGo n acc k l).flatten = acc.reverse ++ l := by
  intro l
  induction l with
  | nil =>
    intro acc k
    by_cases h : acc.isEmpty
    · simp [chunksGo, h, List.isEmpty_iff.mp h]
    · simp [chunksGo, h]
  | cons x xs ih =>
    intro acc k
    match k with
    | 0 => simp [chunksGo, ih [x] (n - 1)]
    | k' + 1 => simp [chunksGo, ih (x :: acc) k']

/-- The bytes the 1 MiB read loop feeds to the hasher are exactly the
file's contents. -/
theorem hasherFeed_eq (contents : List Nat) : hasherFeed contents = contents := by
  simp [hasherFeed, chunksOf, foldl_append_flatten, chunksGo_flatten]

/-- `calculate_file_hash_base64` computes the base64 encoding of the
little-endian-packed XXH64 (seed 0) digest of the whole file. -/
theorem calculate_file_hash_base64_eq (contents : List Nat) :
    calculate_file_hash_base64 contents = base64Encode (packLE8 (xxh64 0 contents)) := by
  rw [calculate_file_hash_base64, hasherFeed_eq]

/-- C1: for every file on disk, Hash-mode verification computes the
fingerprint by streaming the file in 1 MiB chunks through 64-bit xxHash
with seed 0, packing the 8-byte digest little-endian and base64-encoding
it; the outcome is verified exactly when this digest string equals the
expected hash; and hashing the same bytes twice yields the same digest. -/
theorem C1_hash_mode_verification (fs : FS) (path : String) (bytes : List Nat)
    (expected_hash expected_size : String) (st : Ledger)
    (hfs : fs path = some bytes) (hh : expected_hash ≠ "") :
    calculate_file_hash_base64 bytes = base64Encode (packLE8 (xxh64 0 bytes))
    ∧ ((verify_and_update_state .Hash fs path expected_hash expected_size true st).outcome
        = .ok true ↔ calculate_file_hash_base64 bytes = expected_hash)
    ∧ (∀ bytes2, bytes2 = bytes →
        calculate_file_hash_base64 bytes2 = calculate_file_hash_base64 bytes) := by
  refine ⟨calculate_file_hash_base64_eq bytes, ?_, fun _ h => by rw [h]⟩
  simp [verify_and_update_state, abspath, hh, hfs]

/-- Witness for C1 on a concrete three-byte file whose expected hash is the
digest Python computes for those bytes. -/
theorem C1_hash_mode_verification_witness :
    (verify_and_update_state .Hash fsAbc "/dl/a.bin" "mQl3rfUsvEQ=" "" true ledgerEmpty).outcome
      = .ok true :=
  (C1_hash_mode_verification fsAbc "/dl/a.bin" [0x61, 0x62, 0x63] "mQl3rfUsvEQ=" "" ledgerEmpty
    (by decide) (by decide)).2.1.mpr (by decide)

/-- C2: under Size mode, verification of a successfully downloaded item is
verified exactly when the on-disk byte length equals the numeric
expected_size; an absent expected_size yields an unverified outcome and a
non-numeric one raises (caught), so neither is ever verified. -/
theorem C2_size_mode_verification (fs : FS) (path expected_hash expected_size : String)
    (bytes : List Nat) (st : Ledger) (hfs : fs path = some bytes) :
    (expected_size = "" →
      (verify_and_update_state .Size fs path expected_hash expected_size true st).outcome
        = .ok false)
    ∧ (expected_size ≠ "" → pyInt? expected_size = none →
      (verify_and_update_state .Size fs path expected_hash expected_size true st).outcome
        = .exn)
    ∧ (∀ n, pyInt? expected_size = some n →
      ((verify_and_update_state .Size fs path expected_hash expected_size true st).outcome
          = .ok true
        ↔ (bytes.length : Int) = n)) := by
  refine ⟨?_, ?_, ?_⟩
  · intro h
    simp [verify_and_update_state, abspath, h]
  · intro h hn
    simp [verify_and_update_state, abspath, h, fsGetSize?, hfs, hn]
  · intro n hn
    by_cases h : expected_size = ""
    · subst h
      exact absurd hn (by simp [pyInt?, stripWs])
    · simp [verify_and_update_state, abspath, h, fsGetSize?, hfs, hn]

/-- Witness for C2: a 1048576-byte file against Size "1048576" is verified,
and a 1048500-byte file against the same expected size is not. -/
theorem C2_size_mode_verification_witness :
    (verify_and_update_state .Size fsModA "/dl/mod_a.zip" "" "1048576" true ledgerEmpty).outcome
      = .ok true
    ∧ (verify_and_update_state .Size fsModA "/dl/mod_b.zip" "" "1048576" true ledgerEmpty).outcome
      ≠ .ok true := by
  constructor
  · exact ((C2_size_mode_verification fsModA "/dl/mod_a.zip" "" "1048576"
      (List.replicate 1048576 0) ledgerEmpty rfl).2.2 1048576 (by decide)).mpr
      (by rw [List.length_replicate]; rfl)
  · intro hc
    have hlen := ((C2_size_mode_verification fsModA "/dl/mod_b.zip" "" "1048576"
      (List.replicate 1048500 0) ledgerEmpty rfl).2.2 1048576 (by decide)).mp hc
    rw [List.length_replicate] at hlen
    omega

/-- C3: a work record whose Hash and Size fields are both empty is never
verified under Size or Hash mode — the verification outcome is never
`ok true`, the state dict is left unchanged (no ledger entry at all, hence
none with verified=true), and the existing-file check rejects it. -/
theorem C3_empty_fingerprints_never_verified (mode : VerifyMode) (fs : FS) (st : Ledger)
    (filepath : String) (success : Bool) (hm : mode = .Size ∨ mode = .Hash) :
    (verify_and_update_state mode fs filepath "" "" success st).outcome ≠ .ok true
    ∧ (verify_and_update_state mode fs filepath "" "" success st).ledger = st
    ∧ (check_existing_file mode fs st filepath "" "").result = false
    ∧ (check_existing_file mode fs st filepath "" "").ledger = st := by
  have hcheck : check_existing_file mode fs st filepath "" ""
      = checkFallback mode fs st filepath "" "" := by
    simp [check_existing_file, checkStateBranch]
  rcases hm with h | h <;> subst h <;>
    refine ⟨?_, ?_, ?_, ?_⟩ <;>
    cases success <;>
    by_cases hex : fsExists fs (abspath filepath) <;>
    simp [verify_and_update_state, hcheck, checkFallback, abspath, hex]

/-- Witness for C3 at Size mode on a concrete file and empty state. -/
theorem C3_empty_fingerprints_never_verified_witness :
    (verify_and_update_state .Size fsFive "/dl/f.bin" "" "" true ledgerEmpty).outcome ≠ .ok true
    ∧ (check_existing_file .Size fsFive ledgerEmpty "/dl/f.bin" "" "").result = false :=
  ⟨(C3_empty_fingerprints_never_verified .Size fsFive ledgerEmpty "/dl/f.bin" true
      (Or.inl rfl)).1,
   (C3_empty_fingerprints_never_verified .Size fsFive ledgerEmpty "/dl/f.bin" true
      (Or.inl rfl)).2.2.1⟩

/-- C4 counterexample: under Size mode with an empty Size field, a work
record with non-empty Hash, a verified=true ledger record at that hash,
and the stored path still on disk is NOT accepted by `check_existing_file`
— it returns false and the item is enqueued for download. -/
theorem C4_counterexample :
    stH1 "h1" = some ⟨some "/dl/f.bin", true⟩
    ∧ fsExists fsFive "/dl/f.bin" = true
    ∧ (check_existing_file .Size fsFive stH1 "/dl/f.bin" "h1" "").result = false
    ∧ (process_csv_row .Size fsFive stH1 "/dl" rowH1).1 = .enqueue "u1" "/dl/f.bin" := by
  refine ⟨rfl, rfl, ?_, ?_⟩ <;> decide

/-- C4 (amended): under Hash or Skip verification mode, every work record
with a non-empty Hash for which the state holds a verified=true record at
that hash whose stored (non-empty) path still exists on disk is accepted by
`check_existing_file` with the state unchanged, and `process_csv_row` never
enqueues it for resolution or transfer. -/
theorem C4_amended_verified_state_skips (mode : VerifyMode) (fs : FS) (st : Ledger)
    (filepath expected_hash expected_size statePath : String)
    (hm : mode = .Hash ∨ mode = .Skip) (hh : expected_hash ≠ "")
    (hst : st expected_hash = some ⟨some statePath, true⟩)
    (hsp : statePath ≠ "") (hex : fsExists fs statePath = true) :
    (check_existing_file mode fs st filepath expected_hash expected_size).result = true
    ∧ (check_existing_file mode fs st filepath expected_hash expected_size).ledger = st
    ∧ ∀ (downloadDir url name : String), url ≠ "" → name ≠ "" →
        ∀ u fp, (process_csv_row mode fs st downloadDir
            ⟨some url, some expected_hash, some expected_size, some name⟩).1
          ≠ .enqueue u fp := by
  have hcb : checkStateBranch mode fs st expected_hash expected_size = some ⟨true, st, 0, []⟩ := by
    rcases hm with h | h <;> subst h <;> simp [checkStateBranch, hh, hst, hsp, hex]
  have hcheck : ∀ fp', check_existing_file mode fs st fp' expected_hash expected_size
      = ⟨true, st, 0, []⟩ := by
    intro fp'
    simp [check_existing_file, hcb]
  refine ⟨by rw [hcheck], by rw [hcheck], ?_⟩
  intro dir url name hu hn u fp
  simp [process_csv_row, hu, hn, hcheck]

/-- Witness for the amended C4 at a concrete verified state entry. -/
theorem C4_amended_verified_state_skips_witness :
    (check_existing_file .Hash fsFive stH1 "/dl/f.bin" "h1" "").result = true :=
  (C4_amended_verified_state_skips .Hash fsFive stH1 "/dl/f.bin" "h1" "" "/dl/f.bin"
    (Or.inl rfl) (by decide) rfl (by decide) rfl).1

/-- C10: in Hash mode, a verified=true state record at the expected hash
whose stored path exists makes `check_existing_file` return true with no
state change, no save, and no file re-hashed; the result does not depend on
the file's current bytes (a changed file is still accepted), and the item
is never enqueued for download. -/
theorem C10_state_hit_skips_rehash (fs : FS) (st : Ledger)
    (filepath expected_hash expected_size statePath : String)
    (hh : expected_hash ≠ "") (hst : st expected_hash = some ⟨some statePath, true⟩)
    (hsp : statePath ≠ "") (hex : fsExists fs statePath = true) :
    check_existing_file .Hash fs st filepath expected_hash expected_size = ⟨true, st, 0, []⟩
    ∧ (∀ bytes2, (check_existing_file .Hash (fsOverride fs statePath bytes2) st
        filepath expected_hash expected_size).result = true)
    ∧ ∀ (downloadDir url name : String), url ≠ "" → name ≠ "" →
        ∀ u fp, (process_csv_row .Hash fs st downloadDir
            ⟨some url, some expected_hash, some expected_size, some name⟩).1
          ≠ .enqueue u fp := by
  have hmain : ∀ (fs2 : FS), fsExists fs2 statePath = true →
      ∀ fp', check_existing_file .Hash fs2 st fp' expected_hash expected_size
        = ⟨true, st, 0, []⟩ := by
    intro fs2 hex2 fp'
    have hcb : checkStateBranch .Hash fs2 st expected_hash expected_size
        = some ⟨true, st, 0, []⟩ := by
      simp [checkStateBranch, hh, hst, hsp, hex2]
    simp [check_existing_file, hcb]
  refine ⟨hmain fs hex filepath, ?_, ?_⟩
  · intro bytes2
    rw [hmain (fsOverride fs statePath bytes2) (by simp [fsOverride, fsExists]) filepath]
  · intro dir url name hu hn u fp
    simp [process_csv_row, hu, hn, hmain fs hex]

/-- Witness for C10: the state-verified five-byte file is accepted even
after its on-disk contents are replaced by different bytes. -/
theorem C10_state_hit_skips_rehash_witness :
    (check_existing_file .Hash (fsOverride fsFive "/dl/f.bin" [7, 7]) stH1
      "/dl/f.bin" "h1" "").result = true :=
  (C10_state_hit_skips_rehash fsFive stH1 "/dl/f.bin" "h1" "" "/dl/f.bin"
    (by decide) rfl (by decide) rfl).2.1 [7, 7]

/-- C5 counterexample: a completed batch of two verified items produces
three persists, not one — and the event right after the first item's
verification (before the second item's) is already a persist, since
`verify_and_update_state` itself ends with `save_state`. -/
theorem C5_counterexample :
    batchEvents ["a", "b"]
      = [.verifyItem "a", .save, .verifyItem "b", .save, .save]
    ∧ (batchEvents ["a", "b"])[1]? = some .save
    ∧ ¬ countSaves (batchEvents ["a", "b"]) = 1 := by
  refine ⟨?_, ?_, ?_⟩ <;> decide

/-- C5 (amended): the ledger is persisted once after every individual item
verification and once more at the end of each completed batch — a batch of
n items produces n + 1 persists, and a whole run adds one final persist on
top of its batches. -/
theorem C5_amended_persist_per_item_and_batch :
    (∀ items : List String, countSaves (batchEvents items) = items.length + 1)
    ∧ (∀ batches : List (List String),
        countSaves (runEvents batches)
          = (batches.map fun b => b.length + 1).sum + 1) := by
  have hbatch : ∀ items : List String, countSaves (batchEvents items) = items.length + 1 := by
    intro items
    induction items with
    | nil => rfl
    | cons i rest ih =>
      simp [batchEvents, processResultsEvents, verifyCallEvents, countSaves,
        List.count_cons, List.count_append] at *
      omega
  refine ⟨hbatch, ?_⟩
  intro batches
  induction batches with
  | nil => rfl
  | cons b rest ih =>
    have hb := hbatch b
    simp only [runEvents, batchEvents, countSaves, List.map_cons, List.flatten_cons,
      List.count_append, List.map_map, List.sum_cons] at *
    omega

/-- C6 counterexample: an item Confirmed on the first run is re-enqueued on
the second run over unchanged inputs — Size mode with field "+5" parses
under `int()` (so the first run verifies a five-byte file and records
verified=true), but `isdigit` rejects it on the second run's existing-file
check, which returns false and enqueues the item for a new transfer. -/
theorem C6_counterexample :
    (verify_and_update_state .Size fsM "/dl/m.bin" "h6" "+5" true ledgerEmpty).outcome
      = .ok true
    ∧ (process_csv_row .Size fsM
        (verify_and_update_state .Size fsM "/dl/m.bin" "h6" "+5" true ledgerEmpty).ledger
        "/dl" rowM).1 = .enqueue "u6" "/dl/m.bin" := by
  refine ⟨?_, ?_⟩ <;> decide

/-- C6 (amended): under Hash verification mode, every item verified on the
first run (outcome ok true, which records verified=true at its non-empty
hash) is skipped by the existing-file check on a second run over the same
files and resulting state: the check returns true and `process_csv_row`
never enqueues it, so no transfer is performed for it. -/
theorem C6_amended_hash_confirmed_skipped_on_rerun (fs : FS) (st : Ledger)
    (path expected_hash expected_size : String) (hp : path ≠ "")
    (hok : (verify_and_update_state .Hash fs path expected_hash expected_size true st).outcome
      = .ok true) :
    ∀ (downloadDir url name expected_size2 : String), url ≠ "" → name ≠ "" →
      (check_existing_file .Hash fs
          (verify_and_update_state .Hash fs path expected_hash expected_size true st).ledger
          (downloadDir ++ "/" ++ name) expected_hash expected_size2).result = true
      ∧ ∀ u fp, (process_csv_row .Hash fs
          (verify_and_update_state .Hash fs path expected_hash expected_size true st).ledger
          downloadDir ⟨some url, some expected_hash, some expected_size2, some name⟩).1
        ≠ .enqueue u fp := by
  by_cases he : expected_hash = ""
  · exfalso
    simp [verify_and_update_state, he, abspath] at hok
  · cases hfs : fs path with
    | none =>
      exfalso
      simp [verify_and_update_state, he, hfs, abspath] at hok
    | some bytes =>
      have hcalc : calculate_file_hash_base64 bytes = expected_hash := by
        simpa [verify_and_update_state, he, hfs, abspath] using hok
      have hled : (verify_and_update_state .Hash fs path expected_hash
          expected_size true st).ledger = ledgerSet st expected_hash ⟨some path, true⟩ := by
        simp [verify_and_update_state, he, hfs, abspath, hcalc]
      have hex2 : fsExists fs path = true := by
        simp [fsExists, hfs]
      have hstv : (ledgerSet st expected_hash ⟨some path, true⟩) expected_hash
          = some ⟨some path, true⟩ := by
        simp [ledgerSet]
      have hcheck : ∀ fp' es2, check_existing_file .Hash fs
          (ledgerSet st expected_hash ⟨some path, true⟩) fp' expected_hash es2
          = ⟨true, ledgerSet st expected_hash ⟨some path, true⟩, 0, []⟩ := by
        intro fp' es2
        have hcb : checkStateBranch .Hash fs (ledgerSet st expected_hash ⟨some path, true⟩)
            expected_hash es2
            = some ⟨true, ledgerSet st expected_hash ⟨some path, true⟩, 0, []⟩ := by
          simp [checkStateBranch, he, hstv, hp, hex2]
        simp [check_existing_file, hcb]
      intro dir url name es2 hu hn
      rw [hled]
      refine ⟨by rw [hcheck], ?_⟩
      intro u fp
      simp [process_csv_row, hu, hn, hcheck]

/-- Witness for the amended C6: the concrete three-byte file verified under
Hash mode on the first run is not enqueued on the second. -/
theorem C6_amended_hash_confirmed_skipped_on_rerun_witness :
    (process_csv_row .Hash fsAbc
        (verify_and_update_state .Hash fsAbc "/dl/a.bin" "mQl3rfUsvEQ=" "" true
          ledgerEmpty).ledger
        "/dl" ⟨some "ux", some "mQl3rfUsvEQ=", some "", some "a.bin"⟩).1
      ≠ .enqueue "ux" "/dl/a.bin" :=
  ((C6_amended_hash_confirmed_skipped_on_rerun fsAbc ledgerEmpty "/dl/a.bin" "mQl3rfUsvEQ=" ""
      (by decide) (by decide)) "/dl" "ux" "a.bin" "" (by decide) (by decide)).2 "ux" "/dl/a.bin"

/-- C7: link resolution returns the direct URL exactly when a numeric file
id was extracted and the POST got HTTP 200 with a JSON body whose url
field is non-empty; with no numeric file id no request is issued at all;
and at most one request is ever issued (no retry). -/
theorem C7_resolver_contract (url : String) (env : HttpReply) :
    (∀ u, (get_nexusmods_download_url url env).1 = some u ↔
        (searchFileId url.data).isSome ∧ env = .reply 200 (some (some u)) ∧ u ≠ "")
    ∧ (searchFileId url.data = none → (get_nexusmods_download_url url env).2 = 0)
    ∧ (get_nexusmods_download_url url env).2 ≤ 1 := by
  have hreq0 : searchFileId url.data = none → (get_nexusmods_download_url url env).2 = 0 := by
    intro h
    simp [get_nexusmods_download_url, h]
  have hreq1 : (get_nexusmods_download_url url env).2 ≤ 1 := by
    cases hs : searchFileId url.data with
    | none => simp [get_nexusmods_download_url, hs]
    | some fid =>
      cases env with
      | transport => simp [get_nexusmods_download_url, hs]
      | reply status f =>
        by_cases h200 : status = 200
        · subst h200
          rcases f with _ | (_ | u0)
          · simp [get_nexusmods_download_url, hs]
          · simp [get_nexusmods_download_url, hs]
          · by_cases hu : u0 = "" <;> simp [get_nexusmods_download_url, hs, hu]
        · simp [get_nexusmods_download_url, hs, h200]
  refine ⟨?_, hreq0, hreq1⟩
  intro u
  constructor
  · intro h
    cases hs : searchFileId url.data with
    | none => simp [get_nexusmods_download_url, hs] at h
    | some fid =>
      cases env with
      | transport => simp [get_nexusmods_download_url, hs] at h
      | reply status f =>
        by_cases h200 : status = 200
        · subst h200
          rcases f with _ | (_ | u0)
          · simp [get_nexusmods_download_url, hs] at h
          · simp [get_nexusmods_download_url, hs] at h
          · by_cases hu : u0 = ""
            · simp [get_nexusmods_download_url, hs, hu] at h
            · simp [get_nexusmods_download_url, hs, hu] at h
              subst h
              exact ⟨by simp [hs], rfl, hu⟩
        · simp [get_nexusmods_download_url, hs, h200] at h
  · rintro ⟨hsome, henv, hu⟩
    subst henv
    obtain ⟨fid, hs⟩ := Option.isSome_iff_exists.mp hsome
    simp [get_nexusmods_download_url, hs, hu]

/-- Witness for C7: a concrete reference URL with file_id=345 and a 200
reply carrying a non-empty url field resolves to that URL. -/
theorem C7_resolver_contract_witness :
    (get_nexusmods_download_url urlRef replyOk).1 = some "https://cdn.example/d.7z" :=
  ((C7_resolver_contract urlRef replyOk).1 "https://cdn.example/d.7z").mpr
    ⟨by decide, rfl, by decide⟩

/-- The per-row loop processes exactly the rows it is handed, in order. -/
theorem processRows_map_fst (mode : VerifyMode) (fs : FS) (dir : String) :
    ∀ (st : Ledger) (l : List Row), (processRows mode fs dir st l).1.map Prod.fst = l := by
  intro st l
  induction l generalizing st with
  | nil => rfl
  | cons r rest ih => simp [processRows, ih]

/-- The sort comparison on parsed size keys is transitive. -/
theorem rowLe_trans : ∀ a b c : Row, rowLe a b → rowLe b c → rowLe a c := by
  intro a b c
  simp [rowLe]
  omega

/-- The sort comparison on parsed size keys is total. -/
theorem rowLe_total : ∀ a b : Row, rowLe a b || rowLe b a := by
  intro a b
  simp [rowLe]
  omega

/-- C8: the skip-check/enqueue pass of `run` visits precisely the work
records sorted by non-decreasing parsed Size key — a permutation of the
input whose size keys are pairwise non-decreasing — before any
per-row skip-check or enqueueing takes place. -/
theorem C8_rows_processed_in_size_order (mode : VerifyMode) (fs : FS) (downloadDir : String)
    (st : Ledger) (rows : List Row)
    (hall : ∀ r ∈ rows, (sizeKey? r).isSome) :
    ((runRowPass mode fs downloadDir st rows).1.map Prod.fst = sortRows rows)
    ∧ (sortRows rows).Perm rows
    ∧ List.Pairwise (fun a b => (sizeKey? a).getD 0 ≤ (sizeKey? b).getD 0) (sortRows rows)
    ∧ ∀ r ∈ sortRows rows, (sizeKey? r).isSome := by
  refine ⟨processRows_map_fst mode fs downloadDir st (sortRows rows),
    List.mergeSort_perm rows rowLe, ?_, ?_⟩
  · have hs := List.sorted_mergeSort rowLe_trans rowLe_total rows
    exact hs.imp (by intro a b h; simpa [rowLe] using h)
  · intro r hr
    exact hall r ((List.mergeSort_perm rows rowLe).mem_iff.mp hr)

/-- Witness for C8 on three concrete rows with parseable sizes. -/
theorem C8_rows_processed_in_size_order_witness :
    (∀ r ∈ rowsSizes, (sizeKey? r).isSome) ∧ (sortRows rowsSizes).Perm rowsSizes :=
  ⟨by decide,
   (C8_rows_processed_in_size_order .Size fsFive "/dl" ledgerEmpty rowsSizes (by decide)).2.1⟩

/-- The drain loop of `download_batch` never exceeds the queue-size bound. -/
theorem drainLoop_length_le (n : Nat) :
    ∀ (q acc : List (String × String)), acc.length ≤ n
      → (drainLoop n acc q).1.length ≤ n := by
  intro q
  induction q with
  | nil =>
    intro acc h
    simpa [drainLoop] using h
  | cons x rest ih =>
    intro acc h
    by_cases hlt : acc.length < n
    · simp only [drainLoop, if_pos hlt]
      exact ih (acc ++ [x]) (by simp; omega)
    · simpa [drainLoop, hlt] using h

/-- The drain loop splits the queue: batch plus leftover is the queue. -/
theorem drainLoop_append (n : Nat) :
    ∀ (q acc : List (String × String)),
      (drainLoop n acc q).1 ++ (drainLoop n acc q).2 = acc ++ q := by
  intro q
  induction q with
  | nil =>
    intro acc
    simp [drainLoop]
  | cons x rest ih =>
    intro acc
    by_cases hlt : acc.length < n
    · simp only [drainLoop, if_pos hlt, ih (acc ++ [x])]
      simp
    · simp [drainLoop, hlt]

/-- C9: with concurrency degree `queueSize`, each batch handed to the
parallel downloader holds at most `queueSize` items (so at most that many
transfer tasks are started, and they all finish before the next batch is
drained); the batch and the leftover queue partition the pending queue, and
resolution yields at most one transfer task per queued work item. -/
theorem C9_concurrency_bound (queueSize : Nat) (q : List (String × String))
    (resolve : String → Option String) :
    (download_batch queueSize q).1.length ≤ queueSize
    ∧ (download_batch queueSize q).1 ++ (download_batch queueSize q).2 = q
    ∧ (resolvedTasks resolve (download_batch queueSize q).1).length
        ≤ (download_batch queueSize q).1.length
    ∧ (resolvedTasks resolve (download_batch queueSize q).1).length ≤ queueSize := by
  have h1 := drainLoop_length_le queueSize q [] (by simp)
  have h2 := drainLoop_append queueSize q []
  have h3 : ∀ l : List (String × String), (resolvedTasks resolve l).length ≤ l.length :=
    fun l => List.length_filterMap_le _ _
  exact ⟨h1, by simpa using h2, h3 _, le_trans (h3 _) h1⟩
